import Mathlib

/-!
Verification of the YapperJS process supervisor and argument builder
(`src/unnamed/part_000`, the express server).  The JavaScript globals
`llamaServerProcess`, `serverStatus`, `serverLogs` become a `ServerState`
record; the `/start-server` handler, the child stream handlers and the
`/server-status` handler become pure state-transition functions.
-/

namespace Yapper

/-- JSON/JS primitive values as they occur in the request body and in the
flag-definition catalog. -/
inductive JSValue where
  | vStr (s : String)
  | vNum (n : Int)
  | vBool (b : Bool)
  | vNull
  | vUndef
deriving DecidableEq, Repr

open JSValue

/-- JavaScript `String(value)` on the primitives above. -/
def jsToString : JSValue → String
  | vStr s => s
  | vNum n => toString n
  | vBool true => "true"
  | vBool false => "false"
  | vNull => "null"
  | vUndef => "undefined"

/-- JavaScript truthiness of a primitive, as used by `flags[p]` checks. -/
def truthy : JSValue → Bool
  | vStr s => s ≠ ""
  | vNum n => n ≠ 0
  | vBool b => b
  | vNull => false
  | vUndef => false

/-- One entry of `config/llama-flags.json`: the build loop only ever reads
the optional `default` field; `type` is carried along as data. -/
structure FlagDef where
  type : String
  default : Option JSValue
deriving DecidableEq, Repr

/-- The flag-definition catalog, keyed by flag name. -/
abbrev Schema := List (String × FlagDef)

/-- JS `flagDefinitions[key]?.default`: `undefined` when the key is absent
from the catalog or when its entry has no `default` field. -/
def defaultOf (schema : Schema) (k : String) : JSValue :=
  match schema.lookup k with
  | some fd => fd.default.getD vUndef
  | none => vUndef

/-- The guard `value !== '' && value !== null && value !== undefined`
(negated: values the loop skips outright). -/
def isEmptyValue (v : JSValue) : Bool :=
  v == vStr "" || v == vNull || v == vUndef

/-- One iteration of the argument build loop (part_000 lines 115-129):
skip empty/null/undefined values, skip values strictly equal to the
schema default, emit a lone presence token for `true` booleans, nothing
for `false` booleans, and flag token plus stringified value otherwise. -/
def emitEntry (schema : Schema) (k : String) (v : JSValue) : List String :=
  if isEmptyValue v then []
  else if v = defaultOf schema k then []
  else
    match v with
    | vBool b => if b then ["--" ++ k] else []
    | _ => ["--" ++ k, jsToString v]

/-- The whole build loop: `Object.entries(flags)` in insertion order,
each entry contributing its `emitEntry` tokens to `args`. -/
def buildArgs (schema : Schema) : List (String × JSValue) → List String
  | [] => []
  | (k, v) :: rest => emitEntry schema k v ++ buildArgs schema rest

/-- One timestamped record pushed onto `serverLogs`. -/
structure LogEntry where
  type : String
  message : String
  timestamp : Nat
deriving DecidableEq, Repr

/-- The three module-level globals of part_000. -/
structure ServerState where
  llamaServerProcess : Option Nat
  serverStatus : String
  serverLogs : List LogEntry
deriving DecidableEq, Repr

/-- Initial global state (part_000 lines 18-20). -/
def initialState : ServerState :=
  { llamaServerProcess := none, serverStatus := "stopped", serverLogs := [] }

/-- The hard-coded preset flag names (part_000 lines 91-103). -/
def presetFlags : List String :=
  [ "embd-gemma-default"
  , "fim-qwen-1.5b-default"
  , "fim-qwen-3b-default"
  , "fim-qwen-7b-default"
  , "fim-qwen-7b-spec"
  , "fim-qwen-14b-spec"
  , "fim-qwen-30b-default"
  , "gpt-oss-20b-default"
  , "gpt-oss-120b-default"
  , "vision-gemma-4b-default"
  , "vision-gemma-12b-default" ]

/-- JS property read `flags[k]` on the parsed request body. -/
def getFlag (flags : List (String × JSValue)) (k : String) : JSValue :=
  (flags.lookup k).getD vUndef

/-- `presetFlags.some(p => flags[p])`. -/
def hasPreset (flags : List (String × JSValue)) : Bool :=
  presetFlags.any fun p => truthy (getFlag flags p)

/-- Outcome of one `POST /start-server` request. -/
inductive StartResult where
  /-- 400 `Server is already running`. -/
  | alreadyRunning
  /-- 503 `llama-server is not installed or available`. -/
  | notInstalled
  /-- 400 `No models found`. -/
  | noModels
  /-- 400 `Please select a model or enable a preset`. -/
  | noModelOrPreset
  /-- 200 `success`: a child was spawned with these arguments. -/
  | started (args : List String)
deriving DecidableEq, Repr

/-- JS `string.endsWith(suffix)` (embedded over character lists so it
evaluates). -/
def jsEndsWith (s sfx : String) : Bool :=
  sfx.data.isSuffixOf s.data

/-- The `POST /start-server` handler (part_000 lines 67-170) on the happy
spawn path: `binaryAvailable` is whether `checkLlamaServer()` found the
executable, `modelFiles` is the models-directory listing, `pid` the handle
of the child a successful `spawn` would create. -/
def startServer (schema : Schema) (binaryAvailable : Bool)
    (modelFiles : List String) (flags : List (String × JSValue)) (pid : Nat)
    (s : ServerState) : ServerState × StartResult :=
  if s.serverStatus = "running" then (s, .alreadyRunning)
  else if !binaryAvailable then (s, .notInstalled)
  else if (modelFiles.filter (fun f => jsEndsWith f ".gguf")).isEmpty then
    (s, .noModels)
  else if !(truthy (getFlag flags "model") || hasPreset flags) then
    (s, .noModelOrPreset)
  else
    let args := buildArgs schema flags
    ({ s with serverStatus := "starting", llamaServerProcess := some pid },
     .started args)

/-- JS `string.trim()`: strip leading and trailing whitespace (embedded as
structural recursion over the character list so it evaluates). -/
def jsTrim (s : String) : String :=
  ⟨((s.data.dropWhile Char.isWhitespace).reverse.dropWhile
      Char.isWhitespace).reverse⟩

/-- The `stdout` stream handler (part_000 lines 137-143). -/
def stdoutHandler (data : String) (ts : Nat) (s : ServerState) : ServerState :=
  let message := jsTrim data
  if message ≠ "" then
    { s with serverLogs := s.serverLogs ++ [⟨"stdout", message, ts⟩] }
  else s

/-- The `stderr` stream handler (part_000 lines 145-151). -/
def stderrHandler (data : String) (ts : Nat) (s : ServerState) : ServerState :=
  let message := jsTrim data
  if message ≠ "" then
    { s with serverLogs := s.serverLogs ++ [⟨"stderr", message, ts⟩] }
  else s

/-- The `close` event handler (part_000 lines 153-162): set status to
stopped, push the exit entry, release the child handle. -/
def closeHandler (code : Int) (ts : Nat) (s : ServerState) : ServerState :=
  { s with
      serverStatus := "stopped"
      serverLogs := s.serverLogs ++
        [⟨"exit", "Process exited with code " ++ toString code, ts⟩]
      llamaServerProcess := none }

/-- Reply of `GET /server-status` (part_000 lines 187-192). -/
structure StatusResponse where
  status : String
  logs : List LogEntry
deriving DecidableEq, Repr

/-- JS `array.slice(-n)`: the at most `n` most recent elements. -/
def lastN (n : Nat) (l : List LogEntry) : List LogEntry :=
  l.drop (l.length - n)

/-- The `GET /server-status` handler: current status plus the last 100 logs. -/
def serverStatusEndpoint (s : ServerState) : StatusResponse :=
  ⟨s.serverStatus, lastN 100 s.serverLogs⟩

/-- The `POST /clear-logs` handler (part_000 lines 221-224). -/
def clearLogs (s : ServerState) : ServerState :=
  { s with serverLogs := [] }

/-- Example catalog used by the spec scenarios: a number flag `threads`
with default 4, a boolean flag `verbose` with default false, and a string
flag `host` with a non-empty default. -/
def flagDefinitionsEx : Schema :=
  [ ("threads", ⟨"number", some (vNum 4)⟩)
  , ("verbose", ⟨"boolean", some (vBool false)⟩)
  , ("host", ⟨"string", some (vStr "127.0.0.1")⟩) ]

/-! ### Basic lemmas about the argument builder -/

theorem buildArgs_append (schema : Schema) (l1 l2 : List (String × JSValue)) :
    buildArgs schema (l1 ++ l2) = buildArgs schema l1 ++ buildArgs schema l2 := by
  induction l1 with
  | nil => rfl
  | cons kv rest ih =>
      cases kv
      simp [buildArgs, ih]

theorem buildArgs_middle (schema : Schema) (pre post : List (String × JSValue))
    (k : String) (v : JSValue) :
    buildArgs schema (pre ++ (k, v) :: post)
      = buildArgs schema pre ++ emitEntry schema k v ++ buildArgs schema post := by
  rw [buildArgs_append]
  simp [buildArgs]

theorem emitEntry_of_empty (schema : Schema) (k : String) (v : JSValue)
    (h : isEmptyValue v = true) : emitEntry schema k v = [] := by
  simp [emitEntry, h]

theorem emitEntry_of_default (schema : Schema) (k : String) (v : JSValue)
    (h : v = defaultOf schema k) : emitEntry schema k v = [] := by
  subst h
  simp [emitEntry]

theorem emitEntry_bool (schema : Schema) (k : String) (b : Bool)
    (h : defaultOf schema k ≠ vBool b) :
    emitEntry schema k (vBool b) = if b then ["--" ++ k] else [] := by
  unfold emitEntry
  rw [if_neg, if_neg (fun h' => h h'.symm)]
  cases b <;> decide

theorem emitEntry_nonbool (schema : Schema) (k : String) (v : JSValue)
    (hempty : isEmptyValue v = false) (hdef : v ≠ defaultOf schema k)
    (hbool : ∀ b, v ≠ vBool b) :
    emitEntry schema k v = ["--" ++ k, jsToString v] := by
  unfold emitEntry
  rw [if_neg (by simp [hempty]), if_neg hdef]
  cases v with
  | vBool b => exact absurd rfl (hbool b)
  | vStr s => rfl
  | vNum n => rfl
  | vNull => rfl
  | vUndef => rfl

/-! ### Claims about the argument builder -/

/-- C4: any config entry whose value equals its flag's schema default
(strict equality, or value and default both empty/null/absent) contributes
no token to the built ArgumentList; with schema `threads : number,
default 4`, config `threads = 4` yields `[]` and config `threads = 8`
yields exactly `["--threads", "8"]`. -/
theorem C4_default_values_omitted :
    (∀ (schema : Schema) (pre post : List (String × JSValue)) (k : String)
        (v : JSValue),
        (v = defaultOf schema k ∨
          (isEmptyValue v = true ∧ isEmptyValue (defaultOf schema k) = true)) →
        buildArgs schema (pre ++ (k, v) :: post) = buildArgs schema (pre ++ post))
    ∧ buildArgs flagDefinitionsEx [("threads", vNum 4)] = []
    ∧ buildArgs flagDefinitionsEx [("threads", vNum 8)] = ["--threads", "8"] := by
  refine ⟨?_, by decide, by decide⟩
  intro schema pre post k v h
  have he : emitEntry schema k v = [] := by
    rcases h with h | ⟨h, _⟩
    · exact emitEntry_of_default schema k v h
    · exact emitEntry_of_empty schema k v h
  rw [buildArgs_middle, he, buildArgs_append]
  simp

/-- C4 witness: the `threads = 4` entry is dropped from a concrete build. -/
theorem C4_witness :
    buildArgs flagDefinitionsEx ([] ++ ("threads", vNum 4) :: [])
      = buildArgs flagDefinitionsEx ([] ++ []) :=
  C4_default_values_omitted.1 flagDefinitionsEx [] [] "threads" (vNum 4)
    (Or.inl (by decide))

/-- C5 fails on the code: the build loop performs no type checking.  A
string `"abc"` supplied for the number-typed `threads` flag is serialized
onto the argument list and the start request succeeds, instead of failing
with a validation error. -/
theorem C5_counterexample :
    List.lookup "threads" flagDefinitionsEx
      = some { type := "number", default := some (vNum 4) } ∧
    (startServer flagDefinitionsEx true ["model.gguf"]
        [("model", vStr "m.gguf"), ("threads", vStr "abc")] 1 initialState).2
      = StartResult.started ["--model", "m.gguf", "--threads", "abc"] := by
  decide

/-- C5 amended: no type validation happens anywhere in the builder; any
non-empty string value differing from the schema default of a number-typed
flag is emitted verbatim as a flag token followed by the raw string. -/
theorem C5_no_type_validation :
    ∀ (schema : Schema) (k : String) (fd : FlagDef) (s : String),
      List.lookup k schema = some fd → fd.type = "number" →
      s ≠ "" → vStr s ≠ defaultOf schema k →
      emitEntry schema k (vStr s) = ["--" ++ k, s] := by
  intro schema k fd s hl ht hs hd
  have he : isEmptyValue (vStr s) = false := by simp [isEmptyValue, hs]
  exact emitEntry_nonbool schema k (vStr s) he hd fun b h => JSValue.noConfusion h

/-- C5 witness: the mismatched `threads = "abc"` entry is emitted. -/
theorem C5_witness :
    emitEntry flagDefinitionsEx "threads" (vStr "abc")
      = ["--" ++ "threads", "abc"] :=
  C5_no_type_validation flagDefinitionsEx "threads"
    { type := "number", default := some (vNum 4) } "abc"
    (by decide) rfl (by decide) (by decide)

/-- C8: a boolean flag set `true` and differing from its schema default
contributes exactly its lone presence token (no value token); set `false`
and differing from default, it contributes nothing; and the spec scenario
for `verbose : boolean, default false` holds concretely. -/
theorem C8_boolean_flag_tokens :
    (∀ (schema : Schema) (pre post : List (String × JSValue)) (k : String),
        defaultOf schema k ≠ vBool true →
        buildArgs schema (pre ++ (k, vBool true) :: post)
          = buildArgs schema pre ++ ["--" ++ k] ++ buildArgs schema post)
    ∧ (∀ (schema : Schema) (pre post : List (String × JSValue)) (k : String),
        defaultOf schema k ≠ vBool false →
        buildArgs schema (pre ++ (k, vBool false) :: post)
          = buildArgs schema pre ++ buildArgs schema post)
    ∧ buildArgs flagDefinitionsEx [("verbose", vBool true)] = ["--verbose"]
    ∧ buildArgs flagDefinitionsEx [("verbose", vBool false)] = [] := by
  refine ⟨?_, ?_, by decide, by decide⟩
  · intro schema pre post k h
    rw [buildArgs_middle, emitEntry_bool schema k true h]
    simp
  · intro schema pre post k h
    rw [buildArgs_middle, emitEntry_bool schema k false h]
    simp

/-- C8 witness: concrete builds around a true and a false boolean entry. -/
theorem C8_witness :
    (buildArgs flagDefinitionsEx ([] ++ ("verbose", vBool true) :: [])
      = buildArgs flagDefinitionsEx []
          ++ ["--" ++ "verbose"] ++ buildArgs flagDefinitionsEx [])
    ∧ (buildArgs flagDefinitionsEx ([] ++ ("threads", vBool false) :: [])
      = buildArgs flagDefinitionsEx [] ++ buildArgs flagDefinitionsEx []) :=
  ⟨C8_boolean_flag_tokens.1 flagDefinitionsEx [] [] "verbose" (by decide),
   C8_boolean_flag_tokens.2.1 flagDefinitionsEx [] [] "threads" (by decide)⟩

/-- C9 fails on the code: an entry whose key has no schema definition is
still emitted, because its default reads as `undefined` and any non-empty
value differs strictly from `undefined`. -/
theorem C9_counterexample :
    List.lookup "bogus" flagDefinitionsEx = none ∧
    buildArgs flagDefinitionsEx [("bogus", vNum 5)] = ["--bogus", "5"] := by
  decide

/-- C9 amended: every entry of the configuration is considered, whether or
not its key has a schema definition; an unknown key gets default
`undefined`, so any non-empty, non-null, non-undefined value for it is
emitted like any other deviating value. -/
theorem C9_unknown_key_emitted :
    ∀ (schema : Schema) (k : String) (v : JSValue),
      List.lookup k schema = none → isEmptyValue v = false →
      emitEntry schema k v
        = match v with
          | vBool b => if b then ["--" ++ k] else []
          | w => ["--" ++ k, jsToString w] := by
  intro schema k v hl he
  have hd : defaultOf schema k = vUndef := by simp [defaultOf, hl]
  have hv : v ≠ vUndef := by
    intro h
    rw [h] at he
    simp [isEmptyValue] at he
  unfold emitEntry
  rw [if_neg (by simp [he]), if_neg (by rw [hd]; exact hv)]
  cases v <;> rfl

/-- C9 witness: the unknown key `bogus` is emitted with its value. -/
theorem C9_witness :
    emitEntry flagDefinitionsEx "bogus" (vNum 5)
      = match vNum 5 with
        | vBool b => if b then ["--" ++ "bogus"] else []
        | w => ["--" ++ "bogus", jsToString w] :=
  C9_unknown_key_emitted flagDefinitionsEx "bogus" (vNum 5) (by decide) (by decide)

/-- C10: an entry whose value is the empty string, null, or undefined
contributes no token to the built ArgumentList, regardless of the flag's
schema default — an empty value can never override a non-empty default. -/
theorem C10_empty_value_never_emitted :
    ∀ (schema : Schema) (pre post : List (String × JSValue)) (k : String)
      (v : JSValue),
      isEmptyValue v = true →
      buildArgs schema (pre ++ (k, v) :: post) = buildArgs schema (pre ++ post) := by
  intro schema pre post k v h
  rw [buildArgs_middle, emitEntry_of_empty schema k v h, buildArgs_append]
  simp

/-- C10 witness: an explicit empty string for `host` (whose schema default
is the non-empty `127.0.0.1`) contributes nothing. -/
theorem C10_witness :
    buildArgs flagDefinitionsEx ([] ++ ("host", vStr "") :: [])
      = buildArgs flagDefinitionsEx ([] ++ []) :=
  C10_empty_value_never_emitted flagDefinitionsEx [] [] "host" (vStr "")
    (by decide)

/-! ### Claims about the process supervisor, status view and log buffer -/

/-- C1 fails on the code: the start guard only checks for status
`running`.  With the state `starting` (a lifecycle episode in progress,
state not Stopped) and otherwise valid inputs, the start request is not
refused: it succeeds and spawns a second child, replacing the tracked
handle. -/
theorem C1_counterexample :
    (ServerState.mk (some 1) "starting" []).serverStatus ≠ "stopped" ∧
    (startServer flagDefinitionsEx true ["model.gguf"]
        [("model", vStr "m.gguf")] 2 (ServerState.mk (some 1) "starting" [])).2
      = StartResult.started ["--model", "m.gguf"] ∧
    (startServer flagDefinitionsEx true ["model.gguf"]
        [("model", vStr "m.gguf")] 2
        (ServerState.mk (some 1) "starting" [])).1.llamaServerProcess
      = some 2 := by
  decide

/-- C1 amended: the start guard refuses a request exactly when the status
is `running`: then it reports the already-running error, leaves the state
untouched and spawns nothing; a start while the status is `starting` is
not refused. -/
theorem C1_start_guard :
    ∀ (schema : Schema) (b : Bool) (modelFiles : List String)
      (flags : List (String × JSValue)) (pid : Nat) (s : ServerState),
      s.serverStatus = "running" →
      startServer schema b modelFiles flags pid s = (s, .alreadyRunning) := by
  intro schema b modelFiles flags pid s h
  simp [startServer, h]

/-- C1 witness: a concrete request against a running state is refused
unchanged. -/
theorem C1_witness :
    startServer flagDefinitionsEx true ["model.gguf"]
        [("model", vStr "m.gguf")] 2 (ServerState.mk (some 1) "running" [])
      = (ServerState.mk (some 1) "running" [], .alreadyRunning) :=
  C1_start_guard flagDefinitionsEx true ["model.gguf"]
    [("model", vStr "m.gguf")] 2 (ServerState.mk (some 1) "running" []) rfl

/-- C2: the code never transitions the status to `running`.  A fully
successful start request (binary present, model file present, model flag
set, state stopped, spawn succeeds) leaves the status at `starting`, and a
subsequent status query observes `starting`, not `running`, contradicting
the claim that spawn success is the Running signal. -/
theorem C2_successful_start_stays_starting :
    (startServer flagDefinitionsEx true ["model.gguf"]
        [("model", vStr "m.gguf")] 1 initialState).2
      = StartResult.started ["--model", "m.gguf"] ∧
    (startServer flagDefinitionsEx true ["model.gguf"]
        [("model", vStr "m.gguf")] 1 initialState).1.serverStatus
      = "starting" ∧
    (serverStatusEndpoint (startServer flagDefinitionsEx true ["model.gguf"]
        [("model", vStr "m.gguf")] 1 initialState).1).status
      ≠ "running" := by
  decide

/-- C6: a start request on a stopped state with the binary installed and a
model file present, but whose configuration has no truthy `model` flag and
no truthy preset flag, is rejected with the select-a-model validation
error; the state is returned unchanged (still stopped) and nothing is
spawned. -/
theorem C6_no_model_no_preset_rejected :
    ∀ (schema : Schema) (modelFiles : List String)
      (flags : List (String × JSValue)) (pid : Nat) (s : ServerState),
      s.serverStatus = "stopped" →
      (modelFiles.filter (fun f => jsEndsWith f ".gguf")).isEmpty = false →
      truthy (getFlag flags "model") = false →
      hasPreset flags = false →
      startServer schema true modelFiles flags pid s = (s, .noModelOrPreset) := by
  intro schema modelFiles flags pid s hstat hmods hmodel hpre
  simp [startServer, hstat, hmods, hmodel, hpre]

/-- C6 witness: an empty configuration against a fresh state is rejected
with the validation error and the state stays at the initial stopped
state. -/
theorem C6_witness :
    startServer flagDefinitionsEx true ["m.gguf"] [] 0 initialState
      = (initialState, .noModelOrPreset) :=
  C6_no_model_no_preset_rejected flagDefinitionsEx ["m.gguf"] [] 0 initialState
    rfl (by decide) (by decide) (by decide)

/-- C7: whenever the close handler runs for exit code `code`, exactly one
log entry of kind `exit` carrying the code is appended to the buffer, the
status transitions to `stopped`, and the tracked child handle is
released. -/
theorem C7_exit_handler :
    ∀ (code : Int) (ts : Nat) (s : ServerState),
      (closeHandler code ts s).serverLogs
        = s.serverLogs ++
            [⟨"exit", "Process exited with code " ++ toString code, ts⟩]
      ∧ (closeHandler code ts s).serverStatus = "stopped"
      ∧ (closeHandler code ts s).llamaServerProcess = none := by
  intro code ts s
  exact ⟨rfl, rfl, rfl⟩

/-- Repeated stdout events with a fixed non-blank payload. -/
def appendStdoutN : Nat → ServerState → ServerState
  | 0, s => s
  | n + 1, s => appendStdoutN n (stdoutHandler "llama log line" n s)

theorem stdoutHandler_length (data : String) (ts : Nat) (s : ServerState)
    (h : jsTrim data ≠ "") :
    (stdoutHandler data ts s).serverLogs.length = s.serverLogs.length + 1 := by
  simp [stdoutHandler, h]

theorem appendStdoutN_length : ∀ (n : Nat) (s : ServerState),
    (appendStdoutN n s).serverLogs.length = s.serverLogs.length + n := by
  intro n
  induction n with
  | zero => intro s; rfl
  | succ n ih =>
      intro s
      rw [appendStdoutN, ih, stdoutHandler_length _ _ _ (by decide)]
      omega

/-- C3 fails on the code: the stream handlers push onto `serverLogs`
without any eviction, so no fixed maximum retained count bounds the buffer
across reachable states — repeated stdout events grow it past every
candidate bound. -/
theorem C3_counterexample :
    ¬ ∃ N : Nat, ∀ k : Nat,
        (appendStdoutN k initialState).serverLogs.length ≤ N := by
  rintro ⟨N, h⟩
  have h2 := h (N + 1)
  rw [appendStdoutN_length (N + 1) initialState] at h2
  have h0 : initialState.serverLogs.length = 0 := rfl
  rw [h0] at h2
  omega

/-- C3 amended: the retained buffer is unbounded — each stream append
grows it by one entry and evicts nothing — while, independently, a status
query returns only the most recent 100 entries. -/
theorem C3_unbounded_buffer_bounded_window :
    ∀ (s : ServerState) (data : String) (ts : Nat),
      jsTrim data ≠ "" →
      (stdoutHandler data ts s).serverLogs
          = s.serverLogs ++ [⟨"stdout", jsTrim data, ts⟩]
      ∧ (serverStatusEndpoint s).logs.length ≤ 100
      ∧ (serverStatusEndpoint s).logs = lastN 100 s.serverLogs := by
  intro s data ts h
  refine ⟨by simp [stdoutHandler, h], ?_, rfl⟩
  simp only [serverStatusEndpoint, lastN, List.length_drop]
  omega

/-- C3 witness: a concrete append lands whole at the end of the buffer and
the status window of the fresh state is within its bound. -/
theorem C3_witness :
    (stdoutHandler "ready" 0 initialState).serverLogs
        = initialState.serverLogs ++ [⟨"stdout", jsTrim "ready", 0⟩]
      ∧ (serverStatusEndpoint initialState).logs.length ≤ 100
      ∧ (serverStatusEndpoint initialState).logs
          = lastN 100 initialState.serverLogs :=
  C3_unbounded_buffer_bounded_window initialState "ready" 0 (by decide)

end Yapper
